import Mathlib

/-!
Verification development for the ComputeHorde validator core.

This file gives a shallow embedding, in Lean, of the parts of the repository
relevant to the behavioural claims about:

* the organic job driver (`validator/organic_jobs/miner_driver.py`),
* the prefetching chain-oracle cache (`validator/allowance/utils/supertensor.py`),
* the timeout/retry policy for chain reads (`supertensor.py`),
* the receipt-transfer management command (`management/commands/transfer_receipts.py`),
* the output-upload zip bounds (`compute_horde_core/output_upload/_uploader.py`).

Python functions are translated into executable Lean functions; stateful code is
modelled by explicit state passing; fallible code returns `Except`.  Database
writes of audit `SystemEvent` rows and log statements are elided throughout, as
no claim refers to them.
-/

set_option autoImplicit false

namespace ComputeHorde

/-! ### Job status updates (miner_driver.py)

`JobStatusType` mirrors the set of statuses the driver can emit to the
facilitator.  `status_update_from_job` mirrors the helper of the same name:
the update snapshots the job's current comment. -/

inductive JobStatusType
  | received
  | accepted
  | executor_ready
  | volumes_ready
  | rejected
  | failed
  | completed
  deriving DecidableEq, Repr

/-- A status is terminal when it concludes the job. -/
def JobStatusType.isTerminal : JobStatusType → Bool
  | .rejected => true
  | .failed => true
  | .completed => true
  | _ => false

inductive OrganicJobStatus
  | pending
  | completed
  | failed
  | excused
  deriving DecidableEq, Repr

inductive JobErrorType
  | huggingface_download
  deriving DecidableEq, Repr

/-- The persisted `OrganicJob` row, restricted to the fields the driver writes. -/
structure OrganicJobRecord where
  status : OrganicJobStatus
  comment : String
  stdout : String
  stderr : String
  artifacts : List (String × String)
  error_type : Option JobErrorType
  error_detail : Option String
  deriving DecidableEq, Repr

structure JobStatusUpdate where
  status : JobStatusType
  comment : String
  deriving DecidableEq, Repr

def status_update_from_job (job : OrganicJobRecord) (status : JobStatusType) : JobStatusUpdate :=
  { status := status, comment := job.comment }

/-! ### Excuse receipts (job decline with reason BUSY)

The module `compute_horde_validator.validator.job_excuses` is not part of the
sources provided under src/; only its caller `drive_organic_job` is. -/

structure ExcuseReceipt where
  validator_stake : ℚ
  timestamp : ℤ
  executor_class : String
  is_synthetic : Bool
  miner_hotkey : String
  deriving DecidableEq, Repr

/-- Modelled from the spec: `job_excuses.filter_valid_excuse_receipts` is not under
src/.  The spec (§4.4) reads: the router accepts the decline as legitimate iff the
miner attached excuse receipts issued by validators with stake at or above the
configured floor, whose count, filtered for timestamp at or before the job request
time, same executor class, non-synthetic, and same miner, meets or exceeds the
miner's declared online count for that class.  The source additionally passes the
declined job's uuid; the spec states no condition on it, so none is modelled. -/
def filter_valid_excuse_receipts (receipts_to_check : List ExcuseReceipt) (check_time : ℤ)
    (declined_job_executor_class : String) (minimum_validator_stake_for_excuse : ℚ)
    (miner_hotkey : String) : List ExcuseReceipt :=
  receipts_to_check.filter fun r =>
    decide (minimum_validator_stake_for_excuse ≤ r.validator_stake) &&
    decide (r.timestamp ≤ check_time) &&
    (r.executor_class == declined_job_executor_class) &&
    (!r.is_synthetic) &&
    (r.miner_hotkey == miner_hotkey)

/-! ### The organic job driver (`drive_organic_job`) -/

inductive FailureReason
  | MINER_CONNECTION_FAILED
  | INITIAL_RESPONSE_TIMED_OUT
  | JOB_DECLINED
  | EXECUTOR_READINESS_RESPONSE_TIMED_OUT
  | STREAMING_JOB_READY_TIMED_OUT
  | EXECUTOR_FAILED
  | FINAL_RESPONSE_TIMED_OUT
  | JOB_FAILED
  deriving DecidableEq, Repr

inductive DeclineReason
  | busy
  | decline_other
  deriving DecidableEq, Repr

/-- The last protocol message attached to an `OrganicJobError`, restricted to the
shapes `drive_organic_job` inspects. -/
inductive ReceivedMessage
  | decline (reason : DeclineReason) (receipts : Option (List ExcuseReceipt))
  | job_failed (docker_process_stdout docker_process_stderr : String)
      (error_type : Option JobErrorType) (error_detail : Option String)
  | other_message
  deriving DecidableEq, Repr

/-- Embedding of `OrganicJobError` as raised by `run_organic_job`: a failure reason, the last
received message if any, plus the rendered strings the driver interpolates into
comments (`exc.received_str()` and `str(exc)`). -/
structure OrganicJobError where
  reason : FailureReason
  received : Option ReceivedMessage
  received_str : String
  exc_str : String
  deriving DecidableEq, Repr

/-- Outcome of `run_organic_job`: either the `(stdout, stderr, artifacts)` triple
or an `OrganicJobError`. -/
inductive RunOutcome
  | success (stdout stderr : String) (artifacts : List (String × String))
  | failure (exc : OrganicJobError)
  deriving DecidableEq, Repr

/-- Environment of one `drive_organic_job` call: configuration values, the names
interpolated into comments, the timestamp of the job's `JobStartedReceipt` row
(`none` models `JobStartedReceipt.DoesNotExist`), and the expected executor count.
`expected_miner_executor_count` stands for `job_excuses.get_expected_miner_executor_count`
(not under src/), modelled from the spec as the miner's declared online count for
the declined job's executor class, read at the check time. -/
structure DriveEnv where
  miner_name : String
  job_uuid : String
  executor_class : String
  miner_hotkey : String
  total_job_timeout : ℤ
  initial_response_timeout : ℤ
  executor_ready_timeout : ℤ
  job_started_receipt_timestamp : Option ℤ
  minimum_validator_stake_for_excuse : ℚ
  expected_miner_executor_count : ℤ → ℕ

inductive DriveExn
  | job_started_receipt_missing
  deriving DecidableEq, Repr

structure DriveResult where
  emitted : List JobStatusUpdate
  job : OrganicJobRecord
  retval : Bool
  deriving DecidableEq, Repr

/-- Shallow embedding of `drive_organic_job` (miner_driver.py lines 161-388).
`accepted_notified` records whether `run_organic_job` invoked the installed
`notify_job_accepted` hook (which emits an `accepted` update) before returning.
The returned `emitted` list holds the updates passed to `notify_callback` in
order; `job` is the saved `OrganicJob` row; `retval` is the boolean result. -/
def drive_organic_job (env : DriveEnv) (accepted_notified : Bool)
    (outcome : RunOutcome) (job0 : OrganicJobRecord) : Except DriveExn DriveResult :=
  let pre : List JobStatusUpdate :=
    if accepted_notified then [status_update_from_job job0 .accepted] else []
  match outcome with
  | .success stdout stderr artifacts =>
    let comment := "Miner " ++ env.miner_name ++ " finished: stdout=" ++ stdout
      ++ " stderr=" ++ stderr
    let job := { job0 with
      stdout := stdout
      stderr := stderr
      artifacts := artifacts
      status := OrganicJobStatus.completed
      comment := comment }
    .ok ⟨pre ++ [status_update_from_job job .completed], job, true⟩
  | .failure exc =>
    match exc.reason, exc.received with
    | .MINER_CONNECTION_FAILED, _ =>
      let comment := "Miner connection error: " ++ exc.exc_str
      let job := { job0 with status := OrganicJobStatus.failed, comment := comment }
      .ok ⟨pre ++ [status_update_from_job job .failed], job, false⟩
    | .INITIAL_RESPONSE_TIMED_OUT, _ =>
      let comment := "Miner " ++ env.miner_name ++ " timed out waiting for initial response "
        ++ env.job_uuid ++ " after " ++ toString env.initial_response_timeout ++ " seconds"
      let job := { job0 with status := OrganicJobStatus.failed, comment := comment }
      .ok ⟨pre ++ [status_update_from_job job .failed], job, false⟩
    | .JOB_DECLINED, some (.decline .busy receipts) =>
      match env.job_started_receipt_timestamp with
      | none => .error .job_started_receipt_missing
      | some job_request_time =>
        let valid_excuses := filter_valid_excuse_receipts (receipts.getD []) job_request_time
          env.executor_class env.minimum_validator_stake_for_excuse env.miner_hotkey
        let expected_executor_count := env.expected_miner_executor_count job_request_time
        if expected_executor_count ≤ valid_excuses.length then
          let comment := "Miner properly excused job " ++ env.miner_name ++ ": "
            ++ exc.received_str
          let job := { job0 with status := OrganicJobStatus.excused, comment := comment }
          .ok ⟨pre ++ [status_update_from_job job .rejected], job, false⟩
        else
          let comment := "Miner failed to excuse job " ++ env.miner_name ++ ": "
            ++ exc.received_str
          let job := { job0 with status := OrganicJobStatus.failed, comment := comment }
          .ok ⟨pre ++ [status_update_from_job job .rejected], job, false⟩
    | .JOB_DECLINED, _ =>
      let comment := "Miner declined job " ++ env.miner_name ++ ": " ++ exc.received_str
      let job := { job0 with status := OrganicJobStatus.failed, comment := comment }
      .ok ⟨pre ++ [status_update_from_job job .rejected], job, false⟩
    | .EXECUTOR_READINESS_RESPONSE_TIMED_OUT, _ =>
      let comment := "Miner " ++ env.miner_name ++ " timed out while preparing executor for job "
        ++ env.job_uuid ++ " after " ++ toString env.executor_ready_timeout ++ " seconds"
      let job := { job0 with status := OrganicJobStatus.failed, comment := comment }
      .ok ⟨pre ++ [status_update_from_job job .failed], job, false⟩
    | .STREAMING_JOB_READY_TIMED_OUT, _ =>
      let comment := "Streaming job " ++ env.job_uuid ++ " not ready after "
        ++ toString env.executor_ready_timeout ++ " seconds"
      let job := { job0 with status := OrganicJobStatus.failed, comment := comment }
      .ok ⟨pre ++ [status_update_from_job job .failed], job, false⟩
    | .EXECUTOR_FAILED, _ =>
      let comment := "Miner " ++ env.miner_name ++ " failed to start executor: "
        ++ exc.received_str
      let job := { job0 with status := OrganicJobStatus.failed, comment := comment }
      .ok ⟨pre ++ [status_update_from_job job .failed], job, false⟩
    | .FINAL_RESPONSE_TIMED_OUT, _ =>
      let comment := "Miner " ++ env.miner_name ++ " timed out after "
        ++ toString env.total_job_timeout ++ " seconds"
      let job := { job0 with status := OrganicJobStatus.failed, comment := comment }
      .ok ⟨pre ++ [status_update_from_job job .failed], job, false⟩
    | .JOB_FAILED, some (.job_failed so se et ed) =>
      let comment := "Miner " ++ env.miner_name ++ " failed: " ++ exc.received_str
      let job := { job0 with
        stdout := so
        stderr := se
        error_type := et
        error_detail := ed
        status := OrganicJobStatus.failed
        comment := comment }
      .ok ⟨pre ++ [status_update_from_job job .failed], job, false⟩
    | .JOB_FAILED, _ =>
      let comment := "Miner " ++ env.miner_name ++ " failed: " ++ exc.received_str
      let job := { job0 with status := OrganicJobStatus.failed, comment := comment }
      .ok ⟨pre ++ [status_update_from_job job .failed], job, false⟩

/-- Statuses of the terminal updates within an emitted update sequence. -/
def terminal_statuses (l : List JobStatusUpdate) : List JobStatusType :=
  (l.map JobStatusUpdate.status).filter JobStatusType.isTerminal

/-! ### Concrete instances used by witnesses -/

/-- A concrete driver environment used by witnesses: the job request receipt exists
(timestamp 5), the stake floor is 1000, and the miner declares one online executor. -/
def drive_env_example : DriveEnv :=
  ⟨"m", "u", "gpu", "hk", 300, 3, 300, some 5, 1000, fun _ => 1⟩

def job_record_example : OrganicJobRecord := ⟨.pending, "", "", "", [], none, none⟩

/-- C1: When a miner declines a job with reason BUSY, `drive_organic_job` emits exactly
one `rejected` status update for that job (and no other terminal update), and the job is
recorded as excused with comment prefix "Miner properly excused" if and only if the
number of valid excuse receipts, per `filter_valid_excuse_receipts`, is at least the
miner's expected online executor count for that class; otherwise the job is recorded as
failed with comment prefix "Miner failed to excuse". -/
theorem busy_decline_excuse_policy (env : DriveEnv) (an : Bool) (job0 : OrganicJobRecord)
    (receipts : Option (List ExcuseReceipt)) (rs es : String) (t : ℤ) (res : DriveResult)
    (ht : env.job_started_receipt_timestamp = some t)
    (h : drive_organic_job env an
        (.failure ⟨.JOB_DECLINED, some (.decline .busy receipts), rs, es⟩) job0 = .ok res) :
    ((res.emitted.map JobStatusUpdate.status).count JobStatusType.rejected = 1) ∧
    terminal_statuses res.emitted = [JobStatusType.rejected] ∧
    (res.job.status = OrganicJobStatus.excused ↔
      env.expected_miner_executor_count t ≤
        (filter_valid_excuse_receipts (receipts.getD []) t env.executor_class
          env.minimum_validator_stake_for_excuse env.miner_hotkey).length) ∧
    (res.job.status = OrganicJobStatus.excused →
        ∃ suffix, res.job.comment = "Miner properly excused" ++ suffix) ∧
    (res.job.status ≠ OrganicJobStatus.excused →
        res.job.status = OrganicJobStatus.failed ∧
        ∃ suffix, res.job.comment = "Miner failed to excuse" ++ suffix) := by
  simp [drive_organic_job, ht] at h
  split at h <;> cases h <;> rename_i hcnt <;> cases an <;>
    simp [terminal_statuses, status_update_from_job, JobStatusType.isTerminal, hcnt]
  · exact ⟨" job " ++ env.miner_name ++ ": " ++ rs, by
      simp only [← String.append_assoc]
      rfl⟩
  · exact ⟨" job " ++ env.miner_name ++ ": " ++ rs, by
      simp only [← String.append_assoc]
      rfl⟩
  · exact ⟨" job " ++ env.miner_name ++ ": " ++ rs, by
      simp only [← String.append_assoc]
      rfl⟩
  · exact ⟨" job " ++ env.miner_name ++ ": " ++ rs, by
      simp only [← String.append_assoc]
      rfl⟩

/-- The result of a BUSY decline with no attached receipts in `drive_env_example`
(one online executor expected, zero valid excuses): job failed, one rejected update. -/
def busy_decline_result_example : DriveResult :=
  ⟨[⟨.rejected, "Miner failed to excuse job m: r"⟩],
   ⟨.failed, "Miner failed to excuse job m: r", "", "", [], none, none⟩, false⟩

/-- Witness for `busy_decline_excuse_policy` at a concrete input. -/
theorem busy_decline_excuse_policy_witness :
    ((busy_decline_result_example.emitted.map JobStatusUpdate.status).count
        JobStatusType.rejected = 1) ∧
    terminal_statuses busy_decline_result_example.emitted = [JobStatusType.rejected] ∧
    (busy_decline_result_example.job.status = OrganicJobStatus.excused ↔
      drive_env_example.expected_miner_executor_count 5 ≤
        (filter_valid_excuse_receipts ((some []).getD []) 5 drive_env_example.executor_class
          drive_env_example.minimum_validator_stake_for_excuse
          drive_env_example.miner_hotkey).length) ∧
    (busy_decline_result_example.job.status = OrganicJobStatus.excused →
        ∃ suffix, busy_decline_result_example.job.comment =
          "Miner properly excused" ++ suffix) ∧
    (busy_decline_result_example.job.status ≠ OrganicJobStatus.excused →
        busy_decline_result_example.job.status = OrganicJobStatus.failed ∧
        ∃ suffix, busy_decline_result_example.job.comment =
          "Miner failed to excuse" ++ suffix) :=
  busy_decline_excuse_policy drive_env_example false job_record_example (some [])
    "r" "e" 5 busy_decline_result_example rfl rfl

/-- C2: every completed invocation of `drive_organic_job` emits exactly one terminal
status update: `completed` when `run_organic_job` succeeds, and one `failed` or
`rejected` update when it raises an `OrganicJobError`; the function returns `True`
exactly when the terminal status is `completed`. -/
theorem drive_single_terminal_update (env : DriveEnv) (an : Bool)
    (outcome : RunOutcome) (job0 : OrganicJobRecord) (res : DriveResult)
    (h : drive_organic_job env an outcome job0 = .ok res) :
    (terminal_statuses res.emitted).length = 1 ∧
    (res.retval = true ↔ terminal_statuses res.emitted = [JobStatusType.completed]) ∧
    (∀ s e a, outcome = .success s e a →
      terminal_statuses res.emitted = [JobStatusType.completed]) ∧
    (∀ exc, outcome = .failure exc →
      terminal_statuses res.emitted = [JobStatusType.failed] ∨
      terminal_statuses res.emitted = [JobStatusType.rejected]) := by
  rcases outcome with ⟨s, e, a⟩ | ⟨⟨reason, received, rs, es⟩⟩
  · cases an <;> simp [drive_organic_job] at h <;> subst h <;>
      simp [terminal_statuses, status_update_from_job, JobStatusType.isTerminal]
  · rcases henv : env.job_started_receipt_timestamp with _ | t <;>
    rcases received with _ | (⟨⟨⟩, receipts⟩ | ⟨so, se2, et, ed⟩ | _) <;>
    cases reason <;>
    cases an <;>
    simp [drive_organic_job, henv] at h <;>
    (try split at h) <;>
    (cases h; simp [terminal_statuses, status_update_from_job, JobStatusType.isTerminal])

/-- The result of a successful run in `drive_env_example`. -/
def success_result_example : DriveResult :=
  ⟨[⟨.completed, "Miner m finished: stdout=out stderr=err"⟩],
   ⟨.completed, "Miner m finished: stdout=out stderr=err", "out", "err", [], none, none⟩,
   true⟩

/-- Witness for `drive_single_terminal_update` at a concrete successful run. -/
theorem drive_single_terminal_update_witness :
    (terminal_statuses success_result_example.emitted).length = 1 ∧
    (success_result_example.retval = true ↔
      terminal_statuses success_result_example.emitted = [JobStatusType.completed]) ∧
    (∀ s e a, RunOutcome.success "out" "err" [] = .success s e a →
      terminal_statuses success_result_example.emitted = [JobStatusType.completed]) ∧
    (∀ exc, RunOutcome.success "out" "err" [] = .failure exc →
      terminal_statuses success_result_example.emitted = [JobStatusType.failed] ∨
      terminal_statuses success_result_example.emitted = [JobStatusType.rejected]) :=
  drive_single_terminal_update drive_env_example false (.success "out" "err" [])
    job_record_example success_result_example rfl

/-! ### Chain data model (allowance/utils/supertensor.py)

Neurons, subnet state and derived validator/metagraph views, translated from
`SuperTensor`.  Stakes are modelled as rationals (the source uses floats only as
carriers; every claim about them is order-theoretic). -/

structure AxonInfo where
  ip : String
  deriving DecidableEq, Repr

structure Neuron where
  uid : ℕ
  hotkey : String
  coldkey : String
  stake : ℚ
  axon_info : Option AxonInfo
  deriving DecidableEq, Repr

structure SubnetState where
  total_stake : List (Option ℚ)
  deriving DecidableEq, Repr

structure ValidatorModel where
  uid : ℕ
  hotkey : String
  effective_stake : ℚ
  deriving DecidableEq, Repr

/-- Embedding of `SuperTensor.list_validators` (supertensor.py lines 209-223) as a pure function of
the neuron list and the subnet state read for the requested block. -/
def list_validators_at (neurons : List Neuron) (subnet_state : SubnetState) :
    List ValidatorModel :=
  let validators := neurons.filter fun n => decide ((1000 : ℚ) ≤ n.stake)
  let total_stake := subnet_state.total_stake
  validators.map fun n =>
    { uid := n.uid
      hotkey := n.hotkey
      effective_stake :=
        if h : n.uid < total_stake.length then
          match total_stake.get ⟨n.uid, h⟩ with
          | some v => v
          | none => 0
        else 0 }

/-! ### The prefetching cache (`PrecachingSuperTensor`), consumer side

State of one `PrecachingSuperTensor` instance: the five per-kind caches, the
inherited `SuperTensor._neuron_list_cache` deque (maxlen 15), the producer
watermarks and the producer's task queue.  The underlying chain source is a
deterministic oracle; the `RETRY_ON_TIMEOUT` / `make_sync` wrappers are modelled
separately (see the retry section below) and perform exactly one underlying call
when that call does not time out, which is the case abstracted here. -/

inductive TaskType
  | NEURONS
  | BLOCK_TIMESTAMP
  | BLOCK_HASH
  | SUBNET_STATE
  | VALIDATORS
  | THE_END
  deriving DecidableEq, Repr

structure ChainOracle where
  neurons_at : ℤ → List Neuron
  timestamp_at : ℤ → ℤ
  hash_at : ℤ → String
  subnet_state_at : ℤ → SubnetState

structure PSTState where
  neuron_cache : ℤ → Option (List Neuron)
  timestamp_cache : ℤ → Option ℤ
  hash_cache : ℤ → Option String
  subnet_state_cache : ℤ → Option SubnetState
  validators_cache : ℤ → Option (List ValidatorModel)
  neuron_list_deque : List (ℤ × List Neuron)
  highest_block_requested : Option ℤ
  highest_block_submitted : Option ℤ
  task_queue : List (TaskType × ℤ)

def cacheInsert {α : Type} (c : ℤ → Option α) (b : ℤ) (v : α) : ℤ → Option α :=
  fun x => if x = b then some v else c x

/-- Lookup in `dict(self._neuron_list_cache)`: for duplicate keys the dict keeps the
binding appended last. -/
def deque_lookup (d : List (ℤ × List Neuron)) (b : ℤ) : Option (List Neuron) :=
  (d.reverse.find? fun p => p.1 == b).map Prod.snd

/-- Append to a `deque(maxlen=15)`: the oldest entries are evicted from the front. -/
def deque_append_maxlen (d : List (ℤ × List Neuron)) (x : ℤ × List Neuron) :
    List (ℤ × List Neuron) :=
  let d2 := d ++ [x]
  if 15 < d2.length then d2.drop (d2.length - 15) else d2

/-- Embedding of `SuperTensor._list_neurons` (lines 188-194).  The walrus `if hit := cache.get(...)`
tests truthiness, so an empty cached list behaves as a miss. -/
def super_list_neurons (oracle : ChainOracle) (s : PSTState) (block_number : ℤ) :
    List Neuron × PSTState :=
  let hit := (deque_lookup s.neuron_list_deque block_number).getD []
  if hit ≠ [] then (hit, s)
  else
    let result := oracle.neurons_at block_number
    (result,
      { s with neuron_list_deque := deque_append_maxlen s.neuron_list_deque (block_number, result) })

def set_starting_block (s : PSTState) (block_number : ℤ) : PSTState :=
  { s with
    highest_block_requested := some (max (s.highest_block_requested.getD 0) block_number)
    highest_block_submitted :=
      match s.highest_block_submitted with
      | none => some (block_number - 1)
      | some x => some x }

inductive CacheMissExn
  | cache_miss
  deriving DecidableEq, Repr

/-- Embedding of `PrecachingSuperTensor._list_neurons` (lines 554-565): consult the cache; on a miss
either raise `PrecachingSuperTensorCacheMiss` or fall through to the superclass fetch
and store the result. -/
def pst_list_neurons (oracle : ChainOracle) (throw_on_cache_miss : Bool) (s : PSTState)
    (block_number : ℤ) : Except CacheMissExn (List Neuron) × PSTState :=
  let s := set_starting_block s block_number
  match s.neuron_cache block_number with
  | some neurons => (.ok neurons, s)
  | none =>
    if throw_on_cache_miss then (.error .cache_miss, s)
    else
      let (neurons, s1) := super_list_neurons oracle s block_number
      (.ok neurons,
        { s1 with neuron_cache := cacheInsert s1.neuron_cache block_number neurons })

/-- Embedding of `PrecachingSuperTensor.get_block_timestamp` (lines 567-577).  Note: unlike every
sibling accessor, the miss branch returns the fetched value without a
`cache.put_block_timestamp` call. -/
def pst_get_block_timestamp (oracle : ChainOracle) (throw_on_cache_miss : Bool)
    (s : PSTState) (block_number : ℤ) : Except CacheMissExn ℤ × PSTState :=
  let s := set_starting_block s block_number
  match s.timestamp_cache block_number with
  | some timestamp => (.ok timestamp, s)
  | none =>
    if throw_on_cache_miss then (.error .cache_miss, s)
    else (.ok (oracle.timestamp_at block_number), s)

/-- Embedding of `PrecachingSuperTensor.get_block_hash` (lines 579-591). -/
def pst_get_block_hash (oracle : ChainOracle) (throw_on_cache_miss : Bool) (s : PSTState)
    (block_number : ℤ) : Except CacheMissExn String × PSTState :=
  let s := set_starting_block s block_number
  match s.hash_cache block_number with
  | some block_hash => (.ok block_hash, s)
  | none =>
    if throw_on_cache_miss then (.error .cache_miss, s)
    else
      let block_hash := oracle.hash_at block_number
      (.ok block_hash,
        { s with hash_cache := cacheInsert s.hash_cache block_number block_hash })

/-- Embedding of `PrecachingSuperTensor.get_subnet_state` (lines 593-607). -/
def pst_get_subnet_state (oracle : ChainOracle) (throw_on_cache_miss : Bool) (s : PSTState)
    (block_number : ℤ) : Except CacheMissExn SubnetState × PSTState :=
  let s := set_starting_block s block_number
  match s.subnet_state_cache block_number with
  | some state => (.ok state, s)
  | none =>
    if throw_on_cache_miss then (.error .cache_miss, s)
    else
      let state := oracle.subnet_state_at block_number
      (.ok state,
        { s with subnet_state_cache := cacheInsert s.subnet_state_cache block_number state })

/-- Embedding of `PrecachingSuperTensor.list_validators` (lines 609-620).  The miss branch calls
`super().list_validators`, whose `self.list_neurons` / `self.get_subnet_state` calls
dispatch back to the cache-aware overrides. -/
def pst_list_validators (oracle : ChainOracle) (throw_on_cache_miss : Bool) (s : PSTState)
    (block_number : ℤ) : Except CacheMissExn (List ValidatorModel) × PSTState :=
  let s := set_starting_block s block_number
  match s.validators_cache block_number with
  | some validators => (.ok validators, s)
  | none =>
    if throw_on_cache_miss then (.error .cache_miss, s)
    else
      match pst_list_neurons oracle throw_on_cache_miss s block_number with
      | (.error e, s1) => (.error e, s1)
      | (.ok neurons, s1) =>
        match pst_get_subnet_state oracle throw_on_cache_miss s1 block_number with
        | (.error e, s2) => (.error e, s2)
        | (.ok state, s2) =>
          let validators := list_validators_at neurons state
          (.ok validators,
            { s2 with validators_cache := cacheInsert s2.validators_cache block_number validators })

/-! ### The prefetch producer (`produce_thread`, lines 515-544) -/

def CACHE_AHEAD : ℤ := 10

/-- The five tasks `produce_thread` enqueues for one block. -/
def submit_tasks (b : ℤ) : List (TaskType × ℤ) :=
  [(.NEURONS, b), (.BLOCK_TIMESTAMP, b), (.BLOCK_HASH, b), (.SUBNET_STATE, b),
   (.VALIDATORS, b)]

/-- One iteration of `produce_thread` after a successful `get_current_block()` read:
either every guard passes and the tasks for `highest_block_submitted + 1` are enqueued,
or the iteration sleeps leaving the state unchanged. -/
def produce_step (current_block : ℤ) (s : PSTState) : PSTState :=
  match s.highest_block_requested, s.highest_block_submitted with
  | some requested, some submitted =>
    if CACHE_AHEAD ≤ submitted - requested then s
    else if current_block ≤ submitted then s
    else
      let block_to_submit := submitted + 1
      { s with
        task_queue := s.task_queue ++ submit_tasks block_to_submit
        highest_block_submitted := some block_to_submit }
  | _, _ => s

/-! ### Theorems about the cache, the producer and the validator view -/

/-- Bridge for the guarded stake lookup of `list_validators`: the bounds-checked,
None-defaulting read equals the total `get?`-then-`join` read defaulting to 0. -/
theorem effective_stake_eq (l : List (Option ℚ)) (i : ℕ) :
    (if h : i < l.length then
      match l.get ⟨i, h⟩ with
      | some v => v
      | none => 0
     else 0) = ((l.get? i).join).getD 0 := by
  split
  · rename_i h
    rw [List.get?_eq_get h]
    cases l.get ⟨i, h⟩ <;> simp
  · rename_i h
    rw [List.get?_eq_none.2 (by omega)]
    simp

/-- C9: for any block data, `list_validators` returns exactly the neurons whose stake
is at least 1000, each mapped to a `ValidatorModel` whose effective stake is the subnet
state's total-stake entry at the neuron's uid when that index is in bounds and the
entry is non-None, and 0 otherwise; the lookup is total, so an out-of-range uid never
raises an indexing error. -/
theorem list_validators_stake_floor (neurons : List Neuron) (subnet_state : SubnetState) :
    list_validators_at neurons subnet_state =
      (neurons.filter fun n => decide ((1000 : ℚ) ≤ n.stake)).map (fun n =>
        { uid := n.uid
          hotkey := n.hotkey
          effective_stake := ((subnet_state.total_stake.get? n.uid).join).getD 0 }) := by
  unfold list_validators_at
  apply List.map_congr_left
  intro n hn
  simp only [ValidatorModel.mk.injEq]
  exact ⟨trivial, trivial, effective_stake_eq _ _⟩

/-- A deterministic concrete chain oracle used by the cache theorems. -/
def chain_oracle_example : ChainOracle :=
  ⟨fun _ => [], fun b => 1700000000 + 12 * b, fun b => "hash" ++ toString b, fun _ => ⟨[]⟩⟩

/-- The state of a freshly constructed `PrecachingSuperTensor`: all caches empty. -/
def pst_state_empty : PSTState :=
  ⟨fun _ => none, fun _ => none, fun _ => none, fun _ => none, fun _ => none, [], none,
   none, []⟩

/-- C3 (failing input, block-timestamp kind): with an empty cache and
`throw_on_cache_miss = false`, a `get_block_timestamp` miss at block 7 returns the
value fetched from the chain oracle but leaves the timestamp cache empty, so the
immediately following read of the same (kind, block) misses again (here exhibited
with `throw_on_cache_miss = true`, which turns the second miss into an exception).
The sibling `get_block_hash` accessor, by contrast, stores its fetched value and the
following read is a hit.  The miss branch of `get_block_timestamp` simply lacks the
`cache.put_block_timestamp` call every sibling accessor performs. -/
theorem block_timestamp_miss_not_stored :
    (pst_get_block_timestamp chain_oracle_example false pst_state_empty 7).1 =
      .ok 1700000084 ∧
    ((pst_get_block_timestamp chain_oracle_example false
        pst_state_empty 7).2).timestamp_cache 7 = none ∧
    (pst_get_block_timestamp chain_oracle_example true
        ((pst_get_block_timestamp chain_oracle_example false pst_state_empty 7).2) 7).1 =
      .error .cache_miss ∧
    ((pst_get_block_hash chain_oracle_example false pst_state_empty 7).2).hash_cache 7 =
      some "hash7" ∧
    (pst_get_block_hash chain_oracle_example true
        ((pst_get_block_hash chain_oracle_example false pst_state_empty 7).2) 7).1 =
      .ok "hash7" :=
  ⟨rfl, rfl, rfl, rfl, rfl⟩

/-- C4: one producer iteration either leaves the state unchanged (a sleeping guard),
or, exactly when both watermarks are initialised, the submitted-ahead distance is
below `CACHE_AHEAD` and the submitted watermark is below the current block, it
enqueues the five tasks for block `highest_block_submitted + 1` and advances the
watermark to that block; every enqueued task's block is `highest_block_submitted + 1`
and never exceeds the current block. -/
theorem produce_thread_step_spec (current_block : ℤ) (s : PSTState) :
    (produce_step current_block s = s) ∨
    (∃ requested submitted,
      s.highest_block_requested = some requested ∧
      s.highest_block_submitted = some submitted ∧
      submitted - requested < CACHE_AHEAD ∧
      submitted < current_block ∧
      (produce_step current_block s).task_queue =
        s.task_queue ++ submit_tasks (submitted + 1) ∧
      (produce_step current_block s).highest_block_submitted = some (submitted + 1) ∧
      ((submit_tasks (submitted + 1)).all fun p => decide (p.2 = submitted + 1) &&
        decide (p.2 ≤ current_block)) = true) := by
  rcases hr : s.highest_block_requested with _ | requested <;>
    rcases hsub : s.highest_block_submitted with _ | submitted
  · left; simp [produce_step, hr, hsub]
  · left; simp [produce_step, hr, hsub]
  · left; simp [produce_step, hr, hsub]
  · by_cases h1 : CACHE_AHEAD ≤ submitted - requested
    · left; simp [produce_step, hr, hsub, h1]
    · by_cases h2 : current_block ≤ submitted
      · left; simp [produce_step, hr, hsub, h1, h2]
      · right
        refine ⟨requested, submitted, by simp [hr], by simp [hsub], by omega, by omega,
          ?_, ?_, ?_⟩
        · simp [produce_step, hr, hsub, h1, h2]
        · simp [produce_step, hr, hsub, h1, h2]
        · simp [submit_tasks]
          omega

/-! ### Receipt transfer command (management/commands/transfer_receipts.py)

The kill-switch flag read by one `aget_config("DYNAMIC_RECEIPT_TRANSFER_ENABLED")`
call is an `Option Bool`: `none` models the lookup raising `KeyError`.  Schedules
of reads are functions from the consultation index. -/

inductive TransferIsDisabled
  | disabled
  deriving DecidableEq, Repr

/-- Embedding of `Command._throw_if_disabled` (lines 306-313): return normally only when the
config lookup succeeds and yields a truthy value; a `KeyError` logs a warning and
falls through to `raise TransferIsDisabled`, like an explicit false. -/
def throw_if_disabled (flag : Option Bool) : Except TransferIsDisabled Unit :=
  match flag with
  | some true => .ok ()
  | some false => .error .disabled
  | none => .error .disabled

/-- Embedding of `Command.catch_up` (lines 205-242): for each page, first consult the kill-switch,
then hand the single-page list `[page]` to `ReceiptsTransfer.transfer`.  Returns the
page lists transferred, in order, and whether the loop completed (`false` meaning
`TransferIsDisabled` was raised, aborting the remaining pages). -/
def catch_up (flag : ℕ → Option Bool) : List ℤ → List (List ℤ) × Bool
  | [] => ([], true)
  | page :: rest =>
    match throw_if_disabled (flag 0) with
    | .error _ => ([], false)
    | .ok _ =>
      let r := catch_up (fun n => flag (n + 1)) rest
      ([page] :: r.1, r.2)

/-- The list `reversed(range(lo, hi + 1))`: `hi, hi - 1, ..., lo` (empty when `hi < lo`). -/
def range_desc (lo hi : ℤ) : List ℤ :=
  (List.range (hi + 1 - lo).toNat).map fun (i : ℕ) => hi - (i : ℤ)

/-- The hot pages of `Command.keep_up` and `run_in_loop`:
`reversed(range(current_page - N_ACTIVE_PAGES + 1, current_page + 1))`.
`N_ACTIVE_PAGES` is imported from `compute_horde.receipts.store.local`, which is not
under src/, so it stays a parameter. -/
def hot_pages (n_active current_page : ℤ) : List ℤ :=
  range_desc (current_page - n_active + 1) current_page

/-- One pass of `Command.keep_up` (lines 244-286): consult the kill-switch, then hand
the current hot pages to `ReceiptsTransfer.transfer` in one call. -/
def keep_up_pass (flag : Option Bool) (n_active current_page : ℤ) :
    Except TransferIsDisabled (List ℤ) :=
  match throw_if_disabled flag with
  | .error e => .error e
  | .ok _ => .ok (hot_pages n_active current_page)

/-- Modelled from the spec: `LocalFilesystemPagedReceiptStore.current_page_at` is not
under src/.  Spec section 4.6: `page(t) = floor((t - epoch) / page_duration)`. -/
def current_page_at (epoch page_duration t : ℤ) : ℤ :=
  (t - epoch).fdiv page_duration

/-- Embedding of `Command.run_once` (lines 154-166) together with `Command.handle`'s cutoff
computation (line 129): `cutoff = now - 5 hours`, and all pages from the cutoff page
to the current page are handed to `catch_up` newest-first. -/
def run_once (flag : ℕ → Option Bool) (epoch page_duration now : ℤ) :
    List (List ℤ) × Bool :=
  let cutoff := now - 5 * 3600
  let catchup_cutoff_page := current_page_at epoch page_duration cutoff
  let current_page := current_page_at epoch page_duration now
  catch_up flag (range_desc catchup_cutoff_page current_page)

inductive DaemonEvent
  | ran (i : ℕ)
  | slept_60s
  deriving DecidableEq, Repr

/-- The daemon branch of `Command.handle` (lines 143-150): run `run_in_loop` forever;
when it raises `TransferIsDisabled`, sleep 60 seconds and re-check by starting the
next iteration.  `run_outcome i` is how iteration `i` ends (`run_in_loop` never
returns normally, as its keep-up loop is infinite, so every end is an exception);
`fuel` bounds the observed trace. -/
def daemon_trace (run_outcome : ℕ → Except TransferIsDisabled Unit) :
    ℕ → ℕ → List DaemonEvent
  | 0, _ => []
  | fuel + 1, i =>
    match run_outcome i with
    | .error _ => .ran i :: .slept_60s :: daemon_trace run_outcome fuel (i + 1)
    | .ok _ => .ran i :: daemon_trace run_outcome fuel (i + 1)

/-! ### Theorems about receipt transfer -/

/-- Unfolding lemma: `catch_up` stops at the first non-true flag, transferring exactly
the pages of the enabled prefix, one page per transfer call. -/
theorem catch_up_spec (flag : ℕ → Option Bool) (pages : List ℤ) :
    ∃ k, k ≤ pages.length ∧
      (∀ j, j < k → flag j = some true) ∧
      (catch_up flag pages).1 = (pages.take k).map (fun p => [p]) ∧
      ((catch_up flag pages).2 = true ↔ k = pages.length) ∧
      (k < pages.length → flag k ≠ some true) := by
  induction pages generalizing flag with
  | nil =>
    exact ⟨0, by simp [catch_up]⟩
  | cons page rest ih =>
    rcases hf : flag 0 with _ | b
    · refine ⟨0, by omega, by omega, ?_, ?_, ?_⟩ <;>
        simp [catch_up, throw_if_disabled, hf]
    · cases b
      · refine ⟨0, by omega, by omega, ?_, ?_, ?_⟩ <;>
          simp [catch_up, throw_if_disabled, hf]
      · obtain ⟨k, hk, hall, hcalls, hdone, hstop⟩ := ih (fun n => flag (n + 1))
        refine ⟨k + 1, by simpa using hk, ?_, ?_, ?_, ?_⟩
        · intro j hj
          cases j with
          | zero => exact hf
          | succ j => exact hall j (by omega)
        · simp [catch_up, throw_if_disabled, hf, hcalls]
        · simp [catch_up, throw_if_disabled, hf]
          rw [hdone]
        · intro hlt
          exact hstop (by simpa using hlt)

/-- When the kill-switch stays enabled, `catch_up` transfers every page. -/
theorem catch_up_all_enabled (flag : ℕ → Option Bool) (pages : List ℤ)
    (h : ∀ n, flag n = some true) :
    catch_up flag pages = (pages.map fun p => [p], true) := by
  induction pages generalizing flag with
  | nil => rfl
  | cons page rest ih =>
    simp [catch_up, throw_if_disabled, h 0, ih (fun n => flag (n + 1)) (fun n => h (n + 1))]

/-- Membership in `range_desc`: exactly the inclusive interval. -/
theorem mem_range_desc (lo hi p : ℤ) : p ∈ range_desc lo hi ↔ lo ≤ p ∧ p ≤ hi := by
  unfold range_desc
  rw [List.mem_map]
  constructor
  · rintro ⟨i, hmem, rfl⟩
    rw [List.mem_range] at hmem
    omega
  · rintro ⟨h1, h2⟩
    refine ⟨(hi - p).toNat, ?_, ?_⟩
    · rw [List.mem_range]
      omega
    · omega

/-- Embedding of `range_desc` is strictly descending (newest-first). -/
theorem range_desc_sorted (lo hi : ℤ) : (range_desc lo hi).Pairwise (· > ·) := by
  unfold range_desc
  rw [List.pairwise_map]
  refine (List.pairwise_lt_range _).imp ?_
  intro a b h
  simp only [gt_iff_lt]
  omega

/-- C6: in daemon mode the kill-switch is consulted before every catch-up page
iteration and before every keep-up pass; an iteration that reads a non-true flag
performs no page transfer (only the enabled prefix of pages is transferred, and a
disabled keep-up pass transfers nothing), and the daemon loop reacts to the raised
`TransferIsDisabled` by sleeping 60 seconds before the next re-check. -/
theorem daemon_killswitch (flag : ℕ → Option Bool) (pages : List ℤ)
    (hot_flag : Option Bool) (n_active current_page : ℤ)
    (run_outcome : ℕ → Except TransferIsDisabled Unit) (fuel i : ℕ) :
    (∃ k, k ≤ pages.length ∧
      (∀ j, j < k → flag j = some true) ∧
      (catch_up flag pages).1 = (pages.take k).map (fun p => [p]) ∧
      ((catch_up flag pages).2 = true ↔ k = pages.length) ∧
      (k < pages.length → flag k ≠ some true)) ∧
    (hot_flag ≠ some true →
      keep_up_pass hot_flag n_active current_page = .error .disabled) ∧
    (run_outcome i = .error .disabled →
      daemon_trace run_outcome (fuel + 1) i =
        .ran i :: .slept_60s :: daemon_trace run_outcome fuel (i + 1)) := by
  refine ⟨catch_up_spec flag pages, ?_, ?_⟩
  · intro h
    rcases hot_flag with _ | b
    · rfl
    · cases b
      · rfl
      · exact absurd rfl h
  · intro h
    simp [daemon_trace, h]

/-- Witness for `daemon_killswitch`: a concrete disabled schedule transfers nothing
and the daemon sleeps before re-checking. -/
theorem daemon_killswitch_witness :
    (∃ k, k ≤ ([3, 2] : List ℤ).length ∧
      (∀ j, j < k → (fun _ : ℕ => (some false : Option Bool)) j = some true) ∧
      (catch_up (fun _ => some false) [3, 2]).1 =
        (([3, 2] : List ℤ).take k).map (fun p => [p]) ∧
      ((catch_up (fun _ => some false) [3, 2]).2 = true ↔ k = ([3, 2] : List ℤ).length) ∧
      (k < ([3, 2] : List ℤ).length → (fun _ : ℕ => (some false : Option Bool)) k ≠ some true)) ∧
    ((none : Option Bool) ≠ some true →
      keep_up_pass none 2 100 = .error .disabled) ∧
    ((fun _ : ℕ => (Except.error .disabled : Except TransferIsDisabled Unit)) 0 =
        .error .disabled →
      daemon_trace (fun _ => .error .disabled) 2 0 =
        .ran 0 :: .slept_60s :: daemon_trace (fun _ => .error .disabled) 1 1) :=
  daemon_killswitch (fun _ => some false) [3, 2] none 2 100 (fun _ => .error .disabled) 1 0

/-- C10: a missing `DYNAMIC_RECEIPT_TRANSFER_ENABLED` key (a `KeyError` from the
dynamic-config lookup) makes `_throw_if_disabled` raise `TransferIsDisabled`, exactly
as an explicitly false flag does; a true flag returns normally. -/
theorem missing_killswitch_key_disables :
    throw_if_disabled none = .error .disabled ∧
    throw_if_disabled none = throw_if_disabled (some false) ∧
    throw_if_disabled (some true) = .ok () :=
  ⟨rfl, rfl, rfl⟩

/-- C8: in once mode with the kill-switch enabled, receipt transfer hands exactly the
pages of the inclusive interval from the cutoff page (the page containing
`now - 5 hours`) up to the current page to the transfer routine, newest-first, one
page per transfer call; `range_desc lo hi` is exactly the inclusive interval
`[lo, hi]` enumerated in strictly descending order. -/
theorem run_once_transfers_cutoff_to_current (flag : ℕ → Option Bool)
    (epoch page_duration now : ℤ) (hflag : ∀ n, flag n = some true) :
    (run_once flag epoch page_duration now).1 =
      (range_desc (current_page_at epoch page_duration (now - 5 * 3600))
        (current_page_at epoch page_duration now)).map (fun p => [p]) ∧
    (run_once flag epoch page_duration now).2 = true ∧
    (∀ lo hi p : ℤ, p ∈ range_desc lo hi ↔ lo ≤ p ∧ p ≤ hi) ∧
    (∀ lo hi : ℤ, (range_desc lo hi).Pairwise (· > ·)) := by
  refine ⟨?_, ?_, fun lo hi p => mem_range_desc lo hi p, fun lo hi => range_desc_sorted lo hi⟩
  · rw [show run_once flag epoch page_duration now =
      catch_up flag (range_desc (current_page_at epoch page_duration (now - 5 * 3600))
        (current_page_at epoch page_duration now)) from rfl]
    rw [catch_up_all_enabled flag _ hflag]
  · rw [show run_once flag epoch page_duration now =
      catch_up flag (range_desc (current_page_at epoch page_duration (now - 5 * 3600))
        (current_page_at epoch page_duration now)) from rfl]
    rw [catch_up_all_enabled flag _ hflag]

/-- Witness for `run_once_transfers_cutoff_to_current` with page duration 3600,
epoch 0 and now = 7200. -/
theorem run_once_transfers_cutoff_to_current_witness :
    (run_once (fun _ => some true) 0 3600 7200).1 =
      (range_desc (current_page_at 0 3600 (7200 - 5 * 3600))
        (current_page_at 0 3600 7200)).map (fun p => [p]) ∧
    (run_once (fun _ => some true) 0 3600 7200).2 = true ∧
    (∀ lo hi p : ℤ, p ∈ range_desc lo hi ↔ lo ≤ p ∧ p ≤ hi) ∧
    (∀ lo hi : ℤ, (range_desc lo hi).Pairwise (· > ·)) :=
  run_once_transfers_cutoff_to_current (fun _ => some true) 0 3600 7200 (fun _ => rfl)

/-! ### Output upload zip bounds (compute_horde_core/output_upload/_uploader.py) -/

def MAX_NUMBER_OF_FILES : ℕ := 1000

/-- The default of the `max_size_bytes` parameter of `zipped_directory` (and the
value set by `OutputUploader.__init__`). -/
def default_max_size_bytes : ℕ := 2147483648

structure OutputUploadFailed where
  description : String
  deriving DecidableEq, Repr

/-- Embedding of `zipped_directory` (lines 286-319).  `entries` is the relative-path view of
`directory.glob("**/*")`; `zip_size` abstracts the byte size of the temporary zip
built from the filtered entries (the `fp.tell()` after writing).  Both refusals
happen before the context manager yields, so on a refusal nothing is handed to the
caller. -/
def zipped_directory (entries : List String) (exclude : Option (List String))
    (zip_size : List String → ℕ) (max_size_bytes : ℕ) :
    Except OutputUploadFailed (ℕ × List String) :=
  let exclude_set := exclude.getD []
  let filtered_files := entries.filter fun f => decide (f ∉ exclude_set)
  if MAX_NUMBER_OF_FILES < filtered_files.length then
    .error ⟨"Attempting to upload too many files"⟩
  else
    let file_size := zip_size filtered_files
    if max_size_bytes < file_size then
      .error ⟨"Attempting to upload too large file"⟩
    else
      .ok (file_size, filtered_files)

inductive UploadAction
  | post (file_size : ℕ)
  | put (file_size : ℕ)
  deriving DecidableEq, Repr

/-- Embedding of `ZipAndHTTPPostOutputUploader.upload` (lines 97-107): the POST happens only inside
the `zipped_directory` context, so a refusal produces no upload action at all. -/
def zip_and_post_upload (entries : List String) (zip_size : List String → ℕ)
    (max_size_bytes : ℕ) : Except OutputUploadFailed (List UploadAction) :=
  match zipped_directory entries none zip_size max_size_bytes with
  | .error e => .error e
  | .ok (file_size, _) => .ok [UploadAction.post file_size]

/-- C7: `zipped_directory` raises `OutputUploadFailed` when the directory, after
removing the excluded relative paths, holds more than `MAX_NUMBER_OF_FILES = 1000`
entries, and when the created zip exceeds `max_size_bytes`
(default 2147483648); in both refusal cases nothing is yielded, so the uploader
attempts no upload. -/
theorem zipped_directory_bounds (entries : List String) (exclude : Option (List String))
    (zip_size : List String → ℕ) (max_size_bytes : ℕ) :
    MAX_NUMBER_OF_FILES = 1000 ∧
    default_max_size_bytes = 2147483648 ∧
    (MAX_NUMBER_OF_FILES < (entries.filter fun f => decide (f ∉ exclude.getD [])).length →
      zipped_directory entries exclude zip_size max_size_bytes =
        .error ⟨"Attempting to upload too many files"⟩) ∧
    ((entries.filter fun f => decide (f ∉ exclude.getD [])).length ≤ MAX_NUMBER_OF_FILES →
      max_size_bytes < zip_size (entries.filter fun f => decide (f ∉ exclude.getD [])) →
      zipped_directory entries exclude zip_size max_size_bytes =
        .error ⟨"Attempting to upload too large file"⟩) ∧
    (∀ e : OutputUploadFailed,
      zipped_directory entries none zip_size max_size_bytes = .error e →
      zip_and_post_upload entries zip_size max_size_bytes = .error e) := by
  refine ⟨rfl, rfl, ?_, ?_, ?_⟩
  · intro h
    simp only [zipped_directory, if_pos h]
  · intro h1 h2
    rw [zipped_directory]
    rw [if_neg (by omega)]
    simp only [if_pos h2]
  · intro e he
    simp only [zip_and_post_upload, he]

/-- Witness for `zipped_directory_bounds`: 1001 entries, nothing excluded. -/
theorem zipped_directory_bounds_witness :
    MAX_NUMBER_OF_FILES = 1000 ∧
    default_max_size_bytes = 2147483648 ∧
    (MAX_NUMBER_OF_FILES <
        ((List.replicate 1001 "f").filter fun f =>
          decide (f ∉ (none : Option (List String)).getD [])).length →
      zipped_directory (List.replicate 1001 "f") none (fun l => l.length)
          default_max_size_bytes =
        .error ⟨"Attempting to upload too many files"⟩) ∧
    (((List.replicate 1001 "f").filter fun f =>
          decide (f ∉ (none : Option (List String)).getD [])).length ≤ MAX_NUMBER_OF_FILES →
      default_max_size_bytes <
        (fun l : List String => l.length)
          ((List.replicate 1001 "f").filter fun f =>
            decide (f ∉ (none : Option (List String)).getD [])) →
      zipped_directory (List.replicate 1001 "f") none (fun l => l.length)
          default_max_size_bytes =
        .error ⟨"Attempting to upload too large file"⟩) ∧
    (∀ e : OutputUploadFailed,
      zipped_directory (List.replicate 1001 "f") none (fun l => l.length)
          default_max_size_bytes = .error e →
      zip_and_post_upload (List.replicate 1001 "f") (fun l => l.length)
          default_max_size_bytes = .error e) :=
  zipped_directory_bounds (List.replicate 1001 "f") none (fun l => l.length)
    default_max_size_bytes

/-! ### Timeout and retry policy for chain reads (supertensor.py)

`make_sync` (lines 66-76) bounds every underlying chain call by
`asyncio.wait_for(..., timeout=DEFAULT_TIMEOUT)` and turns the `TimeoutError` into
`SuperTensorTimeout`; `RETRY_ON_TIMEOUT` (lines 53-59) retries only
`SuperTensorTimeout`, up to 3 attempts, with `tenacity.wait_exponential(multiplier=0.1,
min=0.1, max=0.8)` between attempts and `reraise=True`; `archive_fallback`
(lines 82-98) re-runs the call against the archive node on `UnknownBlock`.

The model: each kind of underlying chain call has an oracle giving, for the n-th
call of that kind, its duration and raw outcome.  `make_sync_call` times out exactly
when the duration reaches `DEFAULT_TIMEOUT`, and adds the (capped) duration to the
elapsed-time account.  State counts the underlying calls per kind, the elapsed time
and the recorded backoff waits. -/

def DEFAULT_TIMEOUT : ℚ := 30

/-- The wait `tenacity.wait_exponential(multiplier=0.1, min=0.1, max=0.8)` computes
after failed attempt number `n`: `clamp(0.1 * 2 ^ n, 0.1, 0.8)`. -/
def wait_exponential (n : ℕ) : ℚ :=
  max (1 / 10) (min ((1 / 10) * 2 ^ n) (8 / 10))

structure MetagraphData where
  block : ℤ
  block_hash : String
  total_stake : List (Option ℚ)
  uids : List ℕ
  hotkeys : List String
  serving_hotkeys : List String
  deriving DecidableEq, Repr

/-- Embedding of `SuperTensor._build_metagraph_data` (lines 225-245) as a pure combination of its
three reads: a neuron is serving when it has an axon whose ip differs from 0.0.0.0. -/
def build_metagraph_data (block_number : ℤ) (block_hash : String)
    (neurons : List Neuron) (subnet_state : SubnetState) : MetagraphData :=
  { block := block_number
    block_hash := block_hash
    total_stake := subnet_state.total_stake
    uids := neurons.map Neuron.uid
    hotkeys := neurons.map Neuron.hotkey
    serving_hotkeys := (neurons.filter fun n =>
        match n.axon_info with
        | some ax => ax.ip != "0.0.0.0"
        | none => false).map Neuron.hotkey }

inductive ChainErr
  | timeout
  | unknown_block
  | archive_not_configured
  | other
  deriving DecidableEq, Repr

/-- Raw outcome of one underlying chain call (before the `wait_for` bound). -/
inductive RawOut (α : Type)
  | val (v : α)
  | unknown_block
  | err
  deriving DecidableEq, Repr

structure RpcState where
  hash_calls : ℕ
  neuron_calls : ℕ
  state_calls : ℕ
  timestamp_calls : ℕ
  shield_calls : ℕ
  elapsed : ℚ
  waits : List ℚ
  rpc_neuron_deque : List (ℤ × List Neuron)
  deriving DecidableEq, Repr

/-- A chain computation: state in, state and result out. -/
abbrev RpcComp (α : Type) := RpcState → RpcState × Except ChainErr α

def bump_hash : RpcState → RpcState × ℕ :=
  fun s => ({ s with hash_calls := s.hash_calls + 1 }, s.hash_calls)

def bump_neurons : RpcState → RpcState × ℕ :=
  fun s => ({ s with neuron_calls := s.neuron_calls + 1 }, s.neuron_calls)

def bump_state : RpcState → RpcState × ℕ :=
  fun s => ({ s with state_calls := s.state_calls + 1 }, s.state_calls)

def bump_timestamp : RpcState → RpcState × ℕ :=
  fun s => ({ s with timestamp_calls := s.timestamp_calls + 1 }, s.timestamp_calls)

def bump_shield : RpcState → RpcState × ℕ :=
  fun s => ({ s with shield_calls := s.shield_calls + 1 }, s.shield_calls)

/-- Embedding of `make_sync` (lines 66-76) applied to one underlying call: the call is bounded by
`DEFAULT_TIMEOUT`; a call lasting at least that long costs `DEFAULT_TIMEOUT` seconds
and raises `SuperTensorTimeout`; otherwise the raw outcome is returned after its
duration. -/
def make_sync_call {α : Type} (bump : RpcState → RpcState × ℕ)
    (oracle : ℕ → ℚ × RawOut α) : RpcComp α := fun s =>
  let s1 := (bump s).1
  let n := (bump s).2
  let d := (oracle n).1
  let s2 := { s1 with elapsed := s1.elapsed + min d DEFAULT_TIMEOUT }
  if DEFAULT_TIMEOUT ≤ d then (s2, .error .timeout)
  else
    match (oracle n).2 with
    | .val v => (s2, .ok v)
    | .unknown_block => (s2, .error .unknown_block)
    | .err => (s2, .error .other)

/-- Embedding of `archive_fallback` (lines 82-98): on `UnknownBlock`, rerun against the archive
node when one is configured, else raise `ArchiveSubtensorNotConfigured`. -/
def archive_fallback_call {α : Type} (lite arch : RpcComp α) (archive_configured : Bool) :
    RpcComp α := fun s =>
  match lite s with
  | (s1, .error .unknown_block) =>
    if archive_configured then arch s1
    else (s1, .error .archive_not_configured)
  | other => other

def add_wait (attempt : ℕ) (s : RpcState) : RpcState :=
  { s with waits := s.waits ++ [wait_exponential attempt] }

/-- Embedding of `RETRY_ON_TIMEOUT` (lines 53-59): run the body; on `SuperTensorTimeout` wait and
retry, at most 3 attempts in total; any other outcome (success or a different error)
is returned immediately; after the third timeout the timeout is re-raised. -/
def retry3 {α : Type} (body : RpcComp α) : RpcComp α := fun s0 =>
  match body s0 with
  | (s1, .error .timeout) =>
    match body (add_wait 1 s1) with
    | (s2, .error .timeout) => body (add_wait 2 s2)
    | other => other
  | other => other

/-- The per-kind call oracles of one `SuperTensor` instance (lite and archive nodes)
plus whether an archive node is configured. -/
structure RpcEnv where
  lite_hash : ℕ → ℚ × RawOut String
  arch_hash : ℕ → ℚ × RawOut String
  lite_neurons : ℕ → ℚ × RawOut (List Neuron)
  arch_neurons : ℕ → ℚ × RawOut (List Neuron)
  lite_state : ℕ → ℚ × RawOut SubnetState
  arch_state : ℕ → ℚ × RawOut SubnetState
  lite_timestamp : ℕ → ℚ × RawOut ℤ
  arch_timestamp : ℕ → ℚ × RawOut ℤ
  shield : ℕ → ℚ × RawOut (List Neuron)
  archive_configured : Bool

/-- Embedding of `SuperTensor._real_list_neurons` (lines 200-207). -/
def st_real_list_neurons (env : RpcEnv) : RpcComp (List Neuron) :=
  archive_fallback_call (make_sync_call bump_neurons env.lite_neurons)
    (make_sync_call bump_neurons env.arch_neurons) env.archive_configured

/-- Embedding of `SuperTensor._list_neurons` (lines 188-194): the 15-entry memo deque in front of
the real fetch (truthiness test as in `super_list_neurons`). -/
def st_list_neurons_inner (env : RpcEnv) (block_number : ℤ) : RpcComp (List Neuron) :=
  fun s =>
    let hit := (deque_lookup s.rpc_neuron_deque block_number).getD []
    if hit ≠ [] then (s, .ok hit)
    else
      match st_real_list_neurons env s with
      | (s1, .ok result) =>
        ({ s1 with rpc_neuron_deque := deque_append_maxlen s1.rpc_neuron_deque (block_number, result) },
          .ok result)
      | other => other

/-- Embedding of `SuperTensor.list_neurons` (lines 196-198). -/
def st_list_neurons (env : RpcEnv) (block_number : ℤ) : RpcComp (List Neuron) :=
  retry3 (st_list_neurons_inner env block_number)

/-- Embedding of `SuperTensor.get_block_timestamp` (lines 253-264). -/
def st_get_block_timestamp (env : RpcEnv) : RpcComp ℤ :=
  retry3 (archive_fallback_call (make_sync_call bump_timestamp env.lite_timestamp)
    (make_sync_call bump_timestamp env.arch_timestamp) env.archive_configured)

/-- Embedding of `SuperTensor.get_subnet_state` (lines 266-276). -/
def st_get_subnet_state (env : RpcEnv) : RpcComp SubnetState :=
  retry3 (archive_fallback_call (make_sync_call bump_state env.lite_state)
    (make_sync_call bump_state env.arch_state) env.archive_configured)

/-- Embedding of `SuperTensor.get_block_hash` (lines 278-287). -/
def st_get_block_hash (env : RpcEnv) : RpcComp String :=
  retry3 (archive_fallback_call (make_sync_call bump_hash env.lite_hash)
    (make_sync_call bump_hash env.arch_hash) env.archive_configured)

/-- Embedding of `SuperTensor.get_shielded_neurons` (lines 289-300): retry around `make_sync`,
with no archive fallback. -/
def st_get_shielded_neurons (env : RpcEnv) : RpcComp (List Neuron) :=
  retry3 (make_sync_call bump_shield env.shield)

/-- The body of `SuperTensor.get_metagraph`: `_build_metagraph_data` (lines 225-245)
sequences `get_block_hash`, `list_neurons` and `get_subnet_state` — each already
carrying its own `RETRY_ON_TIMEOUT`. -/
def st_build_metagraph (env : RpcEnv) (block_number : ℤ) : RpcComp MetagraphData :=
  fun s =>
    match st_get_block_hash env s with
    | (s1, .ok block_hash) =>
      match st_list_neurons env block_number s1 with
      | (s2, .ok neurons) =>
        match st_get_subnet_state env s2 with
        | (s3, .ok state) =>
          (s3, .ok (build_metagraph_data block_number block_hash neurons state))
        | (s3, .error e) => (s3, .error e)
      | (s2, .error e) => (s2, .error e)
    | (s1, .error e) => (s1, .error e)

/-- Embedding of `SuperTensor.get_metagraph` (lines 247-251): `RETRY_ON_TIMEOUT` around the
composite body. -/
def st_get_metagraph (env : RpcEnv) (block_number : ℤ) : RpcComp MetagraphData :=
  retry3 (st_build_metagraph env block_number)

/-! ### Theorems about the retry policy -/

/-- Case analysis of `RETRY_ON_TIMEOUT`: one attempt when the first outcome is not a
timeout (so non-timeout errors are never retried), two when only the first times out,
three otherwise, with the final result being the last attempt's (timeouts re-raised). -/
theorem retry3_cases {α : Type} (body : RpcComp α) (s : RpcState) :
    (((body s).2 ≠ Except.error ChainErr.timeout) ∧ retry3 body s = body s) ∨
    ((body s).2 = Except.error ChainErr.timeout ∧
      (body (add_wait 1 (body s).1)).2 ≠ Except.error ChainErr.timeout ∧
      retry3 body s = body (add_wait 1 (body s).1)) ∨
    ((body s).2 = Except.error ChainErr.timeout ∧
      (body (add_wait 1 (body s).1)).2 = Except.error ChainErr.timeout ∧
      retry3 body s = body (add_wait 2 (body (add_wait 1 (body s).1)).1)) := by
  rcases h1 : body s with ⟨s1, r1⟩
  by_cases ht1 : r1 = Except.error ChainErr.timeout
  · subst ht1
    rcases h2 : body (add_wait 1 s1) with ⟨s2, r2⟩
    by_cases ht2 : r2 = Except.error ChainErr.timeout
    · subst ht2
      right; right
      refine ⟨by simp [h1], by simp [h1, h2], ?_⟩
      simp [retry3, h1, h2]
    · right; left
      refine ⟨by simp [h1], by simp [h1, h2, ht2], ?_⟩
      simp [retry3, h1, h2]
      cases r2 with
      | ok v => rfl
      | error e => cases e <;> simp_all
  · left
    refine ⟨by simp [h1, ht1], ?_⟩
    simp [retry3, h1]
    cases r1 with
    | ok v => rfl
    | error e => cases e <;> simp_all

/-- One `make_sync`-bounded attempt adds at most `DEFAULT_TIMEOUT` (30 s) of call
time, for any bump that only touches a call counter. -/
theorem make_sync_call_elapsed {α : Type} (bump : RpcState → RpcState × ℕ)
    (oracle : ℕ → ℚ × RawOut α) (s : RpcState)
    (hb : ((bump s).1).elapsed = s.elapsed) :
    ((make_sync_call bump oracle s).1).elapsed ≤ s.elapsed + DEFAULT_TIMEOUT := by
  have hstep : ((make_sync_call bump oracle s).1).elapsed =
      ((bump s).1).elapsed + min (oracle (bump s).2).1 DEFAULT_TIMEOUT := by
    unfold make_sync_call
    dsimp only
    split
    · rfl
    · split <;> rfl
  rw [hstep, hb]
  have h := min_le_right (oracle (bump s).2).1 DEFAULT_TIMEOUT
  linarith

/-- The tenacity exponential backoff is clamped into the configured band. -/
theorem wait_exponential_bounds (n : ℕ) :
    (1 : ℚ) / 10 ≤ wait_exponential n ∧ wait_exponential n ≤ 8 / 10 := by
  unfold wait_exponential
  constructor
  · exact le_max_left _ _
  · apply max_le
    · norm_num
    · exact min_le_right _ _

/-- An oracle whose every call lasts the full 30-second timeout. -/
def always_timeout {α : Type} : ℕ → ℚ × RawOut α := fun _ => (30, .err)

def timeout_env : RpcEnv :=
  ⟨always_timeout, always_timeout, always_timeout, always_timeout, always_timeout,
   always_timeout, always_timeout, always_timeout, always_timeout, true⟩

def rpc_state_empty : RpcState := ⟨0, 0, 0, 0, 0, 0, [], []⟩

/-- C5 counterexample: when the underlying block-hash call times out persistently,
one `get_metagraph` invocation executes that call 9 times, not at most 3 — the inner
`get_block_hash` read retries 3 times inside each of the metagraph wrapper's own 3
attempts — and accumulates 270 seconds of bounded call time before re-raising the
timeout, so `get_metagraph` is not itself bounded by a single 30-second timeout. -/
theorem get_metagraph_nested_retry :
    ((st_get_metagraph timeout_env 0 rpc_state_empty).1).hash_calls = 9 ∧
    ((st_get_metagraph timeout_env 0 rpc_state_empty).2) = .error .timeout ∧
    ((st_get_metagraph timeout_env 0 rpc_state_empty).1).elapsed = 270 := by
  refine ⟨rfl, rfl, ?_⟩
  norm_num [st_get_metagraph, retry3, st_build_metagraph, st_get_block_hash,
    archive_fallback_call, make_sync_call, bump_hash, add_wait, timeout_env,
    always_timeout, rpc_state_empty, DEFAULT_TIMEOUT]

/-- C5 (amended): each of `list_neurons`, `get_block_timestamp`, `get_block_hash`,
`get_subnet_state`, `get_shielded_neurons` and the composite `get_metagraph` is the
`RETRY_ON_TIMEOUT` wrapper around its body; the wrapper performs at most 3 attempts,
returns any non-timeout outcome (success or other error) of an attempt immediately
without retrying, re-raises the timeout after a third timed-out attempt, records
exactly the `wait_exponential` waits, which all lie within 0.1 s and 0.8 s, and every
underlying attempt adds at most the 30-second `make_sync` timeout to the elapsed
time.  The 3-attempt bound holds per wrapper: `get_metagraph`'s body is composed of
reads that retry internally, so its underlying reads may be attempted up to 9 times
(see the counterexample). -/
theorem chain_read_retry_policy :
    (∀ (env : RpcEnv) (b : ℤ),
      st_list_neurons env b = retry3 (st_list_neurons_inner env b)) ∧
    (∀ env : RpcEnv, st_get_block_timestamp env = retry3 (archive_fallback_call
      (make_sync_call bump_timestamp env.lite_timestamp)
      (make_sync_call bump_timestamp env.arch_timestamp) env.archive_configured)) ∧
    (∀ env : RpcEnv, st_get_block_hash env = retry3 (archive_fallback_call
      (make_sync_call bump_hash env.lite_hash)
      (make_sync_call bump_hash env.arch_hash) env.archive_configured)) ∧
    (∀ env : RpcEnv, st_get_subnet_state env = retry3 (archive_fallback_call
      (make_sync_call bump_state env.lite_state)
      (make_sync_call bump_state env.arch_state) env.archive_configured)) ∧
    (∀ env : RpcEnv,
      st_get_shielded_neurons env = retry3 (make_sync_call bump_shield env.shield)) ∧
    (∀ (env : RpcEnv) (b : ℤ), st_get_metagraph env b = retry3 (st_build_metagraph env b)) ∧
    (∀ (α : Type) (body : RpcComp α) (s : RpcState),
      (((body s).2 ≠ Except.error ChainErr.timeout) ∧ retry3 body s = body s) ∨
      ((body s).2 = Except.error ChainErr.timeout ∧
        (body (add_wait 1 (body s).1)).2 ≠ Except.error ChainErr.timeout ∧
        retry3 body s = body (add_wait 1 (body s).1)) ∨
      ((body s).2 = Except.error ChainErr.timeout ∧
        (body (add_wait 1 (body s).1)).2 = Except.error ChainErr.timeout ∧
        retry3 body s = body (add_wait 2 (body (add_wait 1 (body s).1)).1))) ∧
    (∀ n : ℕ, (1 : ℚ) / 10 ≤ wait_exponential n ∧ wait_exponential n ≤ 8 / 10) ∧
    (∀ (α : Type) (oracle : ℕ → ℚ × RawOut α) (s : RpcState),
      ((make_sync_call bump_hash oracle s).1).elapsed ≤ s.elapsed + DEFAULT_TIMEOUT ∧
      ((make_sync_call bump_neurons oracle s).1).elapsed ≤ s.elapsed + DEFAULT_TIMEOUT ∧
      ((make_sync_call bump_state oracle s).1).elapsed ≤ s.elapsed + DEFAULT_TIMEOUT ∧
      ((make_sync_call bump_timestamp oracle s).1).elapsed ≤ s.elapsed + DEFAULT_TIMEOUT ∧
      ((make_sync_call bump_shield oracle s).1).elapsed ≤ s.elapsed + DEFAULT_TIMEOUT) :=
  ⟨fun _ _ => rfl, fun _ => rfl, fun _ => rfl, fun _ => rfl, fun _ => rfl, fun _ _ => rfl,
   fun _ body s => retry3_cases body s,
   fun n => wait_exponential_bounds n,
   fun _ oracle s =>
    ⟨make_sync_call_elapsed bump_hash oracle s rfl,
     make_sync_call_elapsed bump_neurons oracle s rfl,
     make_sync_call_elapsed bump_state oracle s rfl,
     make_sync_call_elapsed bump_timestamp oracle s rfl,
     make_sync_call_elapsed bump_shield oracle s rfl⟩⟩

/-- Witness for `chain_read_retry_policy` at concrete inputs: the backoff wait after
the first failed attempt is within the band, and a concrete 30-second call adds
exactly the timeout bound. -/
theorem chain_read_retry_policy_witness :
    ((1 : ℚ) / 10 ≤ wait_exponential 1 ∧ wait_exponential 1 ≤ 8 / 10) ∧
    ((make_sync_call bump_hash (always_timeout (α := String)) rpc_state_empty).1).elapsed ≤
      rpc_state_empty.elapsed + DEFAULT_TIMEOUT :=
  ⟨chain_read_retry_policy.2.2.2.2.2.2.2.1 1,
   (chain_read_retry_policy.2.2.2.2.2.2.2.2 String (always_timeout (α := String))
      rpc_state_empty).1⟩

end ComputeHorde
